import Mathlib

/-!
Shallow embedding of the audio-probe tool (src/src/main.rs) in Lean 4.

Modelling conventions:
* `u64` / `i64` / `i32` are modelled as `Nat` / `Int`; the only arithmetic the
  claims touch (`file_size * 8` for real file sizes, extension-table constants)
  is far below every machine-integer bound, so no wraparound is modelled.
  String-to-integer parsing (`str::parse`) keeps the i64/i32 range checks.
* `f64` values (`duration_seconds`) are modelled as `ℚ`.  At every operand the
  claims evaluate (40000*8/320000, 0*8/1411200, the literal 300.0) the `f64`
  computation is exact, so the rational model agrees with the float one there.
* The file system and the external ffprobe subprocess are environment inputs:
  a `Target` carries, per path, the answers the environment would give
  (`path.exists()`, `fs::metadata(..).len()`, `path.extension()`,
  `path.file_stem()`, and the outcome of the ffprobe invocation after serde
  deserialization, which is an external contract of the program).
* `HashMap<String, String>` (the tag mapping) is modelled as an association
  list with hash-map insert/lookup semantics (`mapInsert` replaces an existing
  binding, else appends; `mapGet` finds the unique binding).  Iteration order
  of the Rust `HashMap` is not observable through any claim.
* Wall-clock measurements (`processing_time_ms`, batch elapsed time) are not
  modelled; the field is left at 0.
-/

/-- Error type `AudioProbeError` (main.rs:16-30).  `Io` carries no payload we need. -/
inductive AudioProbeError where
  | FileNotFound (path : String)
  | InvalidAudioFile (path : String) (reason : String)
  | FFprobeNotFound
  | FFprobeError (msg : String)
  | Io (msg : String)
  | Processing (msg : String)
deriving Repr, DecidableEq

/-- Record type `AudioInfo` (main.rs:32-47).  `metadata` is the tag mapping. -/
structure AudioInfo where
  file_path : String
  file_size : Nat
  duration_seconds : ℚ
  bit_rate : Int
  sample_rate : Int
  channels : Int
  codec_name : String
  codec_long_name : String
  format_name : String
  format_long_name : String
  has_video : Bool
  metadata : List (String × String)
  processing_time_ms : Nat
deriving Repr, DecidableEq

/-- Deserialization target `FFProbeFormat` (main.rs:56-67): the deserialized `format` object of the
ffprobe JSON output.  The unused `filename`/`size` fields are omitted. -/
structure FFProbeFormat where
  format_name : String
  format_long_name : String
  duration : Option String
  bit_rate : Option String
  tags : Option (List (String × String))
deriving Repr, DecidableEq

/-- Deserialization target `FFProbeStream` (main.rs:69-77). -/
structure FFProbeStream where
  codec_name : Option String
  codec_long_name : Option String
  codec_type : String
  sample_rate : Option String
  channels : Option Int
  bit_rate : Option String
deriving Repr, DecidableEq

/-- Deserialization target `FFProbeOutput` (main.rs:50-54). -/
structure FFProbeOutput where
  format : Option FFProbeFormat
  streams : List FFProbeStream
deriving Repr, DecidableEq

/-- Outcome of one ffprobe invocation against one path, after the subprocess
and serde-deserialization boundary (main.rs:187-214): `failure` covers a spawn
error, a non-success exit status and a JSON parse error - `analyze_with_ffprobe`
turns each of those into an `Err` whose variant is recorded here. -/
inductive ProbeOutcome where
  | failure (e : AudioProbeError)
  | success (out : FFProbeOutput)
deriving Repr, DecidableEq

/-- Environment of one target path: every answer the file system and the
ffprobe subprocess give for it during one resolution. -/
structure Target where
  /-- the path itself, as a displayable string -/
  path : String
  /-- `path.exists()` (main.rs:132) -/
  pathExists : Bool
  /-- `std::fs::metadata(&path)` result: `some len` on `Ok`, `none` on `Err`
  (main.rs:139-141, 219-221; both stats of one resolution see the same state) -/
  statSize : Option Nat
  /-- `path.extension().and_then(to_str)` (main.rs:283-284 collapses the two
  options: a present extension that is not valid UTF-8 behaves like none) -/
  extension : Option String
  /-- `path.file_stem().and_then(to_str)` (main.rs:162-163, same collapse) -/
  fileStem : Option String
  /-- the ffprobe run against this path (main.rs:187-214) -/
  probe : ProbeOutcome
deriving Repr, DecidableEq

/-- Constructor `AudioInfo::new` (main.rs:79-96). -/
def AudioInfo.new (file_path : String) : AudioInfo :=
  { file_path := file_path
    file_size := 0
    duration_seconds := 0
    bit_rate := 0
    sample_rate := 0
    channels := 0
    codec_name := ""
    codec_long_name := ""
    format_name := ""
    format_long_name := ""
    has_video := false
    metadata := []
    processing_time_ms := 0 }

/-- Digit run of a Rust integer literal: every char a decimal digit, at least
one char. -/
def digitsToNat (cs : List Char) : Option Nat :=
  if cs ≠ [] ∧ cs.all Char.isDigit then
    some (cs.foldl (fun a c => a * 10 + (c.toNat - 48)) 0)
  else none

/-- Rust `str::parse::<i64>`: optional sign, then decimal digits, `Err` on any
other char, on the empty string and on overflow of the i64 range. -/
def parseI64 (s : String) : Option Int :=
  match s.data with
  | '+' :: rest =>
      (digitsToNat rest).bind fun n =>
        if n ≤ 2 ^ 63 - 1 then some (n : Int) else none
  | '-' :: rest =>
      (digitsToNat rest).bind fun n =>
        if n ≤ 2 ^ 63 then some (-(n : Int)) else none
  | cs =>
      (digitsToNat cs).bind fun n =>
        if n ≤ 2 ^ 63 - 1 then some (n : Int) else none

/-- Rust `str::parse::<i32>`: as `parseI64` with the i32 range. -/
def parseI32 (s : String) : Option Int :=
  match s.data with
  | '+' :: rest =>
      (digitsToNat rest).bind fun n =>
        if n ≤ 2 ^ 31 - 1 then some (n : Int) else none
  | '-' :: rest =>
      (digitsToNat rest).bind fun n =>
        if n ≤ 2 ^ 31 then some (-(n : Int)) else none
  | cs =>
      (digitsToNat cs).bind fun n =>
        if n ≤ 2 ^ 31 - 1 then some (n : Int) else none

/-- Rust `str::parse::<f64>` on the plain-decimal fragment of its grammar
(optional sign, digits, optional fraction), the only shape ffprobe emits for
`duration`; exponent/inf/nan forms of the full grammar are not modelled (no
claim depends on a duration string, and those forms never reach this code). -/
def parseF64 (s : String) : Option ℚ :=
  let core : List Char → Option ℚ := fun cs =>
    match cs.splitOn '.' with
    | [intPart] => (digitsToNat intPart).map (fun n => (n : ℚ))
    | [intPart, fracPart] =>
        (digitsToNat intPart).bind fun n =>
          (digitsToNat fracPart).map fun f =>
            (n : ℚ) + (f : ℚ) / ((10 : ℚ) ^ fracPart.length)
    | _ => none
  match s.data with
  | '+' :: rest => core rest
  | '-' :: rest => (core rest).map Neg.neg
  | cs => core cs

/-- Lookup `HashMap::get(k)` on the association-list model of the tag mapping. -/
def mapGet (m : List (String × String)) (k : String) : Option String :=
  (m.find? (fun p => p.1 == k)).map Prod.snd

/-- Insertion `HashMap::insert(k, v)` on the association-list model: replace the
existing binding for `k` if there is one, otherwise append. -/
def mapInsert (m : List (String × String)) (k v : String) :
    List (String × String) :=
  if m.any (fun p => p.1 == k) then
    m.map (fun p => if p.1 == k then (k, v) else p)
  else m ++ [(k, v)]

/-- Rust `str::to_lowercase`, character-wise.  Lean `Char.toLower` lowers the
ASCII range; every string this program lowercases and then compares (file
extensions, tag keys) is compared against ASCII, where Rust's Unicode
lowercase agrees.  (Core `String.toLower` is avoided only because its
byte-position recursion does not reduce in the kernel.) -/
def strToLower (s : String) : String := ⟨s.data.map Char.toLower⟩

/-- Rust `str::to_uppercase`, character-wise (see `strToLower`). -/
def strToUpper (s : String) : String := ⟨s.data.map Char.toUpper⟩

/-- The per-extension estimation table (main.rs:285-318): set format/codec
names to the lowercased extension, then apply the extension's estimates. -/
def extension_table (info : AudioInfo) (ext_str : String) : AudioInfo :=
  let info := { info with
    format_name := strToLower ext_str
    codec_name := strToLower ext_str }
  match strToLower ext_str with
      | "mp3" => { info with
          codec_long_name := "MP3 (MPEG audio layer 3)"
          format_long_name := "MP2/3 (MPEG audio layer 2/3)"
          sample_rate := 44100
          channels := 2
          bit_rate := 320000 }
      | "wav" => { info with
          codec_name := "pcm_s16le"
          codec_long_name := "PCM signed 16-bit little-endian"
          format_long_name := "WAV / WAVE (Waveform Audio)"
          sample_rate := 44100
          channels := 2
          bit_rate := 44100 * 2 * 16 }
      | "flac" => { info with
          codec_long_name := "FLAC (Free Lossless Audio Codec)"
          format_long_name := "raw FLAC"
          sample_rate := 44100
          channels := 2 }
      | _ => { info with
          codec_long_name := strToUpper ext_str ++ " audio"
          format_long_name := strToUpper ext_str ++ " format"
          sample_rate := 44100
          channels := 2
          bit_rate := 320000 }

/-- The extension-table block of `fallback_analysis` (main.rs:283-320):
look up the (UTF-8) extension and apply `extension_table`; a path with no
such extension is left untouched. -/
def extension_lookup (info : AudioInfo) (t : Target) : AudioInfo :=
  match t.extension with
  | none => info
  | some ext_str => extension_table info ext_str

/-- Estimation `AudioProbe::fallback_analysis` (main.rs:281-330): the extension-table
block, then the duration-estimation block (main.rs:322-329) on its result. -/
def fallback_analysis (info : AudioInfo) (t : Target) : AudioInfo :=
  let info := extension_lookup info t
  if info.bit_rate > 0 then
    { info with
      duration_seconds := ((info.file_size * 8 : Nat) : ℚ) / (info.bit_rate : ℚ) }
  else
    { info with duration_seconds := 300 }

/-- The stream loop of `analyze_with_ffprobe` (main.rs:245-252): select the
first audio-typed stream, flag any video-typed stream. -/
def scanStreams (streams : List FFProbeStream) :
    Option FFProbeStream × Bool :=
  streams.foldl
    (fun acc stream =>
      if stream.codec_type == "audio" && acc.1.isNone then (some stream, acc.2)
      else if stream.codec_type == "video" then (acc.1, true)
      else acc)
    (none, false)

/-- Copy the container-level tags into the record, keys lower-cased
(main.rs:237-241).  The Rust `HashMap` iterates in an unspecified order; the
model iterates in list order (no claim observes a collision of lower-cased
keys, which is the only way the order could show). -/
def insertTags (m : List (String × String))
    (tags : List (String × String)) : List (String × String) :=
  tags.foldl (fun acc kv => mapInsert acc (strToLower kv.1) kv.2) m

/-- Resolver branch `AudioProbe::analyze_with_ffprobe` (main.rs:186-279). -/
def analyze_with_ffprobe (t : Target) : Except AudioProbeError AudioInfo :=
  match t.probe with
  | .failure e => .error e
  | .success probe_data =>
    let info := AudioInfo.new t.path
    let info := { info with file_size := t.statSize.getD 0 }
    let info :=
      match probe_data.format with
      | none => info
      | some format =>
        let info := { info with
          format_name := format.format_name
          format_long_name := format.format_long_name }
        let info :=
          match format.duration with
          | some duration_str =>
              { info with duration_seconds := (parseF64 duration_str).getD 0 }
          | none => info
        let info :=
          match format.bit_rate with
          | some bit_rate_str =>
              { info with bit_rate := (parseI64 bit_rate_str).getD 0 }
          | none => info
        match format.tags with
        | some tags => { info with metadata := insertTags info.metadata tags }
        | none => info
    let scanned := scanStreams probe_data.streams
    let info := { info with has_video := scanned.2 }
    let info :=
      match scanned.1 with
      | none => info
      | some stream =>
        let info :=
          match stream.codec_name with
          | some codec_name => { info with codec_name := codec_name }
          | none => info
        let info :=
          match stream.codec_long_name with
          | some codec_long_name =>
              { info with codec_long_name := codec_long_name }
          | none => info
        let info :=
          match stream.sample_rate with
          | some sample_rate_str =>
              { info with sample_rate := (parseI32 sample_rate_str).getD 0 }
          | none => info
        let info :=
          match stream.channels with
          | some channels => { info with channels := channels }
          | none => info
        match stream.bit_rate with
        | some bit_rate_str =>
          match parseI64 bit_rate_str with
          | some stream_bit_rate =>
            if stream_bit_rate > 0 ∧ info.bit_rate = 0 then
              { info with bit_rate := stream_bit_rate }
            else info
          | none => info
        | none => info
    .ok info

/-- First block of the default-metadata code (main.rs:161-169): set `title`
to the file stem when the key is absent and a stem is available. -/
def backfill_title (fileStem : Option String)
    (m : List (String × String)) : List (String × String) :=
  match mapGet m "title" with
  | some _ => m
  | none =>
    match fileStem with
    | some name => mapInsert m "title" name
    | none => m

/-- Second block (main.rs:170-174): default `artist` when absent. -/
def backfill_artist (m : List (String × String)) : List (String × String) :=
  match mapGet m "artist" with
  | some _ => m
  | none => mapInsert m "artist" "Unknown Artist"

/-- Third block (main.rs:175-179): default `album` when absent. -/
def backfill_album (m : List (String × String)) : List (String × String) :=
  match mapGet m "album" with
  | some _ => m
  | none => mapInsert m "album" "Unknown Album"

/-- The default-metadata block of `analyze_file` (main.rs:160-179): back-fill
`title` from the file stem, `artist` and `album` with literals, each only when
the key is absent. -/
def backfill_tags (fileStem : Option String)
    (m : List (String × String)) : List (String × String) :=
  backfill_album (backfill_artist (backfill_title fileStem m))

/-- Resolver `AudioProbe::analyze_file` (main.rs:126-184).  The semaphore acquisition
at main.rs:127 is pure synchronization and is modelled by the scheduler state
machine below; `use_ffprobe` is the probe availability checked once at startup
(main.rs:108). -/
def analyze_file (use_ffprobe : Bool) (t : Target) :
    Except AudioProbeError AudioInfo :=
  if !t.pathExists then
    .error (.FileNotFound t.path)
  else
    let info := AudioInfo.new t.path
    let info := { info with file_size := t.statSize.getD 0 }
    let info :=
      if use_ffprobe then
        match analyze_with_ffprobe t with
        | .ok i => i
        | .error _ => fallback_analysis info t
      else
        fallback_analysis info t
    let info := { info with metadata := backfill_tags t.fileStem info.metadata }
    .ok info

/-- Batch run `AudioProbe::process_files` (main.rs:332-370): one `analyze_file` result
per submitted path.  `buffer_unordered(max_concurrent)` polls up to
`max_concurrent` futures at once and, for any `max_concurrent ≥ 1`, drives
every one of them to completion, yielding exactly one result per input; the
collected list is modelled in submission order (the claims quantified over it
do not depend on completion order).  Progress-bar calls are display-only. -/
def process_files (max_concurrent : Nat) (use_ffprobe : Bool)
    (targets : List Target) : List (Except AudioProbeError AudioInfo) :=
  let _ := max_concurrent
  targets.map (analyze_file use_ffprobe)

/-- State of one `process_files` run as the admission gate sees it:
`pending` paths whose task has not yet entered `analyze_file`, `inFlight`
`analyze_file` invocations currently executing (each holds exactly one
semaphore permit, main.rs:127, released when `_permit` drops at main.rs:183),
`available` permits free in the semaphore, `completed` finished tasks. -/
structure SchedState where
  pending : Nat
  inFlight : Nat
  available : Nat
  completed : Nat
deriving Repr, DecidableEq

/-- Interleaving semantics of the batch run: a task may enter `analyze_file`
only when a permit is available (`Semaphore::acquire`, main.rs:127; the
`buffer_unordered(max_concurrent)` window, main.rs:363, polls at most
`max_concurrent` tasks, which the same guard covers since both bounds are the
configured limit), and a running task may finish, releasing its permit. -/
inductive SchedStep : SchedState → SchedState → Prop
  | enter (p f a d : Nat) :
      SchedStep ⟨p + 1, f, a + 1, d⟩ ⟨p, f + 1, a, d⟩
  | finish (p f a d : Nat) :
      SchedStep ⟨p, f + 1, a, d⟩ ⟨p, f, a + 1, d + 1⟩

/-- Initial state of a run over `n` targets with concurrency limit `C`:
`Semaphore::new(max_concurrent)` (main.rs:111) fills the pool. -/
def initState (n C : Nat) : SchedState :=
  ⟨n, 0, C, 0⟩

/-- States a run over `n` targets with limit `C` can reach. -/
def SchedReachable (n C : Nat) (s : SchedState) : Prop :=
  Relation.ReflTransGen SchedStep (initState n C) s

/-- The result-partition loop of `main` (main.rs:525-533): successes and
failures each in outcome order. -/
def partitionResults :
    List (Except AudioProbeError AudioInfo) →
      List AudioInfo × List AudioProbeError
  | [] => ([], [])
  | .ok info :: rest =>
      let acc := partitionResults rest
      (info :: acc.1, acc.2)
  | .error e :: rest =>
      let acc := partitionResults rest
      (acc.1, e :: acc.2)

/-- Aggregate `total_duration` (main.rs:543): sum of `duration_seconds` over successes. -/
def total_duration (successful : List AudioInfo) : ℚ :=
  (successful.map (fun info => info.duration_seconds)).sum

/-- Aggregate `total_size` (main.rs:544): sum of `file_size` over successes. -/
def total_size (successful : List AudioInfo) : Nat :=
  (successful.map (fun info => info.file_size)).sum

/-- The audio-extension whitelist (main.rs:373-376 and main.rs:494-498). -/
def audio_extensions : List String :=
  ["mp3", "wav", "flac", "aac", "ogg", "m4a", "wma", "opus",
   "mp2", "ac3", "dts", "ape", "aiff", "au", "ra", "amr",
   "webm", "mkv", "m4b", "m4p"]

/-- One entry seen while scanning a directory: its file-type answer and its
extension (`entry.path().extension().and_then(to_str)` collapsed as in
`Target.extension`). -/
structure DirEntry where
  isFile : Bool
  extension : Option String
deriving Repr, DecidableEq

/-- Extension filter shared by both discovery paths (main.rs:383-389 and
main.rs:492-503): keep a file entry whose lower-cased extension is on the
whitelist. -/
def isAudioEntry (e : DirEntry) : Bool :=
  e.isFile &&
    match e.extension with
    | some ext_str => audio_extensions.contains (strToLower ext_str)
    | none => false

/-- One argument path as `main` classifies it (main.rs:477-511):
`path.is_file()`, `path.is_dir()` (with the directory scan the run would see:
`walk` is the flattened recursive `WalkDir` listing used when `--recursive`,
`dir` the immediate `read_dir` listing otherwise, `none` when `read_dir`
fails and the directory contributes nothing), or neither (warned, skipped). -/
inductive ArgPath where
  | file
  | dir (readDir : Option (List DirEntry)) (walk : List DirEntry)
  | missing
deriving Repr, DecidableEq

/-- Number of files one argument path contributes to `all_files`
(main.rs:477-511).  A file path contributes itself; a directory contributes
its filtered scan; a missing path contributes nothing.  Claims about the CLI
only need the count, so entries are counted instead of collected. -/
def discoveredCount (recursive : Bool) : ArgPath → Nat
  | .file => 1
  | .dir readDir walk =>
      if recursive then (walk.filter isAudioEntry).length
      else
        match readDir with
        | some entries => (entries.filter isAudioEntry).length
        | none => 0
  | .missing => 0

/-- Observable outcome of `main`: exit code plus whether the
no-files warning was printed. -/
structure CliOutcome where
  exitCode : Nat
  warnedNoFiles : Bool
deriving Repr, DecidableEq

/-- Exit path of `main` (main.rs:440-516): `std::process::exit(1)` when no
paths were supplied (main.rs:458-461); warning and `return Ok(())` - process
exit code 0 - when the paths yielded no audio files (main.rs:513-516);
otherwise the run proceeds and `main` returns `Ok(())` (exit 0; an `--output`
write failure could still fail it, but the claims stop at the two guards). -/
def main_exit (recursive : Bool) (paths : List ArgPath) : CliOutcome :=
  if paths.isEmpty then
    ⟨1, false⟩
  else
    let all_files := (paths.map (discoveredCount recursive)).sum
    if all_files = 0 then
      ⟨0, true⟩
    else
      ⟨0, false⟩

/-! ### Helper lemmas about the tag-mapping model -/

theorem mapGet_append (m₁ m₂ : List (String × String)) (k : String) :
    mapGet (m₁ ++ m₂) k = (mapGet m₁ k).or (mapGet m₂ k) := by
  induction m₁ with
  | nil => simp [mapGet]
  | cons a m₁ ih =>
    cases h : (a.1 == k) with
    | true => simp [mapGet, List.find?, h]
    | false =>
      simp only [mapGet, List.cons_append, List.find?, List.append_eq] at ih ⊢
      simp only [h] at ih ⊢
      exact ih

theorem mapInsert_absent (m : List (String × String)) (k v : String)
    (h : mapGet m k = none) : mapInsert m k v = m ++ [(k, v)] := by
  have hfind : m.find? (fun p => p.1 == k) = none := by
    cases hf : m.find? (fun p => p.1 == k) with
    | none => rfl
    | some x =>
      rw [mapGet, hf] at h
      simp at h
  have hall : m.any (fun p => p.1 == k) = false := by
    rw [List.any_eq_false]
    intro p hp
    exact List.find?_eq_none.mp hfind p hp
  simp [mapInsert, hall]

theorem mapGet_insert_absent_self (m : List (String × String)) (k v : String)
    (h : mapGet m k = none) : mapGet (mapInsert m k v) k = some v := by
  rw [mapInsert_absent m k v h, mapGet_append, h]
  simp [mapGet, List.find?]

theorem mapGet_insert_absent_other (m : List (String × String))
    (k v k' : String) (habs : mapGet m k = none) (hne : k' ≠ k) :
    mapGet (mapInsert m k v) k' = mapGet m k' := by
  rw [mapInsert_absent m k v habs, mapGet_append]
  have hkk : (k == k') = false := by
    rw [beq_eq_false_iff_ne]
    exact fun hk => hne hk.symm
  cases hg : mapGet m k' with
  | some w => rfl
  | none => simp [mapGet, List.find?, hkk]

theorem backfill_title_get (stem : Option String)
    (m : List (String × String)) :
    mapGet (backfill_title stem m) "title" = (mapGet m "title").or stem := by
  cases ht : mapGet m "title" with
  | some w => simp [backfill_title, ht]
  | none =>
    cases stem with
    | none => simp [backfill_title, ht]
    | some name =>
      simp only [backfill_title, ht, Option.none_or]
      exact mapGet_insert_absent_self m "title" name ht

theorem backfill_title_get_other (stem : Option String)
    (m : List (String × String)) (k : String) (h : k ≠ "title") :
    mapGet (backfill_title stem m) k = mapGet m k := by
  cases ht : mapGet m "title" with
  | some w => simp [backfill_title, ht]
  | none =>
    cases stem with
    | none => simp [backfill_title, ht]
    | some name =>
      simp only [backfill_title, ht]
      exact mapGet_insert_absent_other m "title" name k ht h

theorem backfill_artist_get_other (m : List (String × String)) (k : String)
    (h : k ≠ "artist") : mapGet (backfill_artist m) k = mapGet m k := by
  cases ha : mapGet m "artist" with
  | some w => simp [backfill_artist, ha]
  | none =>
    simp only [backfill_artist, ha]
    exact mapGet_insert_absent_other m "artist" "Unknown Artist" k ha h

theorem backfill_artist_get_self (m : List (String × String)) :
    ∃ w, mapGet (backfill_artist m) "artist" = some w := by
  cases ha : mapGet m "artist" with
  | some w => exact ⟨w, by simp [backfill_artist, ha]⟩
  | none =>
    refine ⟨"Unknown Artist", ?_⟩
    simp only [backfill_artist, ha]
    exact mapGet_insert_absent_self m "artist" "Unknown Artist" ha

theorem backfill_album_get_other (m : List (String × String)) (k : String)
    (h : k ≠ "album") : mapGet (backfill_album m) k = mapGet m k := by
  cases ha : mapGet m "album" with
  | some w => simp [backfill_album, ha]
  | none =>
    simp only [backfill_album, ha]
    exact mapGet_insert_absent_other m "album" "Unknown Album" k ha h

theorem backfill_album_get_self (m : List (String × String)) :
    ∃ w, mapGet (backfill_album m) "album" = some w := by
  cases ha : mapGet m "album" with
  | some w => exact ⟨w, by simp [backfill_album, ha]⟩
  | none =>
    refine ⟨"Unknown Album", ?_⟩
    simp only [backfill_album, ha]
    exact mapGet_insert_absent_self m "album" "Unknown Album" ha

theorem backfill_title_preserves (stem : Option String)
    (m : List (String × String)) (k : String) (v : String)
    (h : mapGet m k = some v) :
    mapGet (backfill_title stem m) k = some v := by
  cases ht : mapGet m "title" with
  | some w => simpa [backfill_title, ht] using h
  | none =>
    have hk : k ≠ "title" := by
      rintro rfl
      rw [ht] at h
      exact Option.noConfusion h
    rw [backfill_title_get_other stem m k hk]
    exact h

theorem backfill_artist_preserves (m : List (String × String))
    (k : String) (v : String) (h : mapGet m k = some v) :
    mapGet (backfill_artist m) k = some v := by
  cases ha : mapGet m "artist" with
  | some w => simpa [backfill_artist, ha] using h
  | none =>
    have hk : k ≠ "artist" := by
      rintro rfl
      rw [ha] at h
      exact Option.noConfusion h
    rw [backfill_artist_get_other m k hk]
    exact h

theorem backfill_album_preserves (m : List (String × String))
    (k : String) (v : String) (h : mapGet m k = some v) :
    mapGet (backfill_album m) k = some v := by
  cases ha : mapGet m "album" with
  | some w => simpa [backfill_album, ha] using h
  | none =>
    have hk : k ≠ "album" := by
      rintro rfl
      rw [ha] at h
      exact Option.noConfusion h
    rw [backfill_album_get_other m k hk]
    exact h

/-- C7: the tag back-fill step (main.rs:160-179) is idempotent - applying it
twice yields the same tag mapping as applying it once - and non-destructive -
a tag already present, even with an empty-string value, is never
overwritten. -/
theorem backfill_tags_idempotent_nondestructive (stem : Option String)
    (m : List (String × String)) :
    backfill_tags stem (backfill_tags stem m) = backfill_tags stem m
    ∧ ∀ k v, mapGet m k = some v → mapGet (backfill_tags stem m) k = some v := by
  constructor
  · have htitle3 : mapGet (backfill_tags stem m) "title"
        = (mapGet m "title").or stem := by
      show mapGet (backfill_album (backfill_artist (backfill_title stem m)))
          "title" = (mapGet m "title").or stem
      rw [backfill_album_get_other _ _ (by decide),
        backfill_artist_get_other _ _ (by decide), backfill_title_get]
    have hartist3 : ∃ w, mapGet (backfill_tags stem m) "artist" = some w := by
      obtain ⟨w, hw⟩ := backfill_artist_get_self (backfill_title stem m)
      refine ⟨w, ?_⟩
      show mapGet (backfill_album (backfill_artist (backfill_title stem m)))
          "artist" = some w
      rw [backfill_album_get_other _ _ (by decide)]
      exact hw
    have halbum3 : ∃ w, mapGet (backfill_tags stem m) "album" = some w :=
      backfill_album_get_self (backfill_artist (backfill_title stem m))
    have t_fix : backfill_title stem (backfill_tags stem m)
        = backfill_tags stem m := by
      cases h3 : mapGet (backfill_tags stem m) "title" with
      | some w => simp [backfill_title, h3]
      | none =>
        have hstem : stem = none := by
          rw [h3] at htitle3
          cases stem with
          | none => rfl
          | some n => cases hmt : mapGet m "title" <;> rw [hmt] at htitle3 <;>
              simp at htitle3
        subst hstem
        simp only [backfill_title]
        cases mapGet (backfill_tags none m) "title" <;> rfl
    have a_fix : backfill_artist (backfill_tags stem m)
        = backfill_tags stem m := by
      obtain ⟨w, hw⟩ := hartist3
      simp [backfill_artist, hw]
    have al_fix : backfill_album (backfill_tags stem m)
        = backfill_tags stem m := by
      obtain ⟨w, hw⟩ := halbum3
      simp [backfill_album, hw]
    show backfill_album (backfill_artist (backfill_title stem
      (backfill_tags stem m))) = backfill_tags stem m
    rw [t_fix, a_fix, al_fix]
  · intro k v h
    exact backfill_album_preserves _ k v
      (backfill_artist_preserves _ k v
        (backfill_title_preserves stem m k v h))

/-- Witness for C7 at a concrete record: an empty-string `artist` tag survives
the back-fill, and the back-fill is a fixed point of itself there. -/
theorem backfill_tags_idempotent_nondestructive_witness :
    backfill_tags (some "song") (backfill_tags (some "song") [("artist", "")])
      = backfill_tags (some "song") [("artist", "")]
    ∧ mapGet (backfill_tags (some "song") [("artist", "")]) "artist"
      = some "" := by
  have h := backfill_tags_idempotent_nondestructive (some "song")
    [("artist", "")]
  exact ⟨h.1, h.2 "artist" "" (by decide)⟩

/-- C2: `analyze_file` (main.rs:126-184) returns an `Err` exactly when the
path does not exist, and that error is always the `FileNotFound` variant;
every other adverse condition (probe missing, probe failure, malformed
output, stat failure) still produces an `Ok` record. -/
theorem analyze_file_err_iff_not_found (use_ffprobe : Bool) (t : Target) :
    (t.pathExists = false →
      analyze_file use_ffprobe t = .error (.FileNotFound t.path))
    ∧ (t.pathExists = true → ∃ info, analyze_file use_ffprobe t = .ok info)
    ∧ ((∃ e, analyze_file use_ffprobe t = .error e) ↔
        t.pathExists = false) := by
  have h1 : t.pathExists = false →
      analyze_file use_ffprobe t = .error (.FileNotFound t.path) := by
    intro h
    simp [analyze_file, h]
  have h2 : t.pathExists = true →
      ∃ info, analyze_file use_ffprobe t = .ok info := by
    intro h
    simp only [analyze_file, h, Bool.not_true, Bool.false_eq_true, if_false]
    exact ⟨_, rfl⟩
  refine ⟨h1, h2, ?_, fun h => ⟨_, h1 h⟩⟩
  rintro ⟨e, he⟩
  cases hp : t.pathExists with
  | false => rfl
  | true =>
    obtain ⟨info, hok⟩ := h2 hp
    rw [hok] at he
    exact Except.noConfusion he

/-- Witness for C2: the repository's own test input (main.rs:702-707), a
nonexistent `mp3` path, resolves to the `FileNotFound` error. -/
theorem analyze_file_err_iff_not_found_witness :
    analyze_file true
      ⟨"nonexistent.mp3", false, none, some "mp3", some "nonexistent",
        .failure .FFprobeNotFound⟩
      = .error (.FileNotFound "nonexistent.mp3") := by
  exact (analyze_file_err_iff_not_found true _).1 rfl

theorem sched_invariant (n C : Nat) (s : SchedState)
    (h : SchedReachable n C s) :
    s.inFlight + s.available = C ∧ s.pending + s.inFlight + s.completed = n := by
  induction h with
  | refl => simp [initState]
  | tail hab step ih =>
    cases step with
    | enter p f a d =>
      simp only at ih ⊢
      omega
    | finish p f a d =>
      simp only at ih ⊢
      omega

/-- C3: in every state a batch run can reach, the permits held by in-flight
resolutions plus the permits available in the pool equal the configured
limit `C`; hence at most `C` resolutions are in flight, and no permit is
duplicated or lost (the counts are naturals, so neither is ever negative). -/
theorem admission_gate_invariant (n C : Nat) (s : SchedState)
    (h : SchedReachable n C s) :
    s.inFlight + s.available = C ∧ s.inFlight ≤ C ∧ s.available ≤ C := by
  obtain ⟨h1, _⟩ := sched_invariant n C s h
  omega

/-- Witness for C3: the state after admitting one of three targets under
limit 2 is reachable and satisfies the gate invariant. -/
theorem admission_gate_invariant_witness :
    (⟨2, 1, 1, 0⟩ : SchedState).inFlight
        + (⟨2, 1, 1, 0⟩ : SchedState).available = 2
    ∧ (⟨2, 1, 1, 0⟩ : SchedState).inFlight ≤ 2
    ∧ (⟨2, 1, 1, 0⟩ : SchedState).available ≤ 2 := by
  exact admission_gate_invariant 3 2 ⟨2, 1, 1, 0⟩
    (Relation.ReflTransGen.single (SchedStep.enter 2 0 1 0))

/-- C1: for any concurrency limit `C ≥ 1`, `process_files` yields exactly one
outcome per submitted target - the collection has length `n`, its `i`-th
entry is the resolution of the `i`-th target (a `Result`, so an individual
error is an entry, never an abort) - and every terminal state of the
scheduling model has all `n` tasks completed. -/
theorem process_files_complete (C : Nat) (u : Bool) (ts : List Target)
    (hC : 1 ≤ C) :
    (process_files C u ts).length = ts.length
    ∧ (∀ i (h : i < ts.length),
        (process_files C u ts)[i]? = some (analyze_file u ts[i]))
    ∧ (∀ s, SchedReachable ts.length C s →
        (∀ s2, ¬ SchedStep s s2) → s.completed = ts.length) := by
  refine ⟨by simp [process_files], ?_, ?_⟩
  · intro i h
    simp [process_files, List.getElem?_eq_getElem h]
  · intro s hreach hterm
    obtain ⟨hgate, hcount⟩ := sched_invariant ts.length C s hreach
    obtain ⟨p, f, a, d⟩ := s
    simp only at hgate hcount ⊢
    have hf : f = 0 := by
      rcases f with _ | f2
      · rfl
      · exact absurd (SchedStep.finish p f2 a d) (hterm _)
    subst hf
    have hp : p = 0 := by
      rcases a with _ | a2
      · omega
      · rcases p with _ | p2
        · rfl
        · exact absurd (SchedStep.enter p2 0 a2 d) (hterm _)
    subst hp
    omega

/-- Witness for C1 at a concrete batch: one nonexistent target, limit 2. -/
theorem process_files_complete_witness :
    (process_files 2 false
      [⟨"a.mp3", false, none, some "mp3", some "a",
        .failure .FFprobeNotFound⟩]).length = 1 := by
  have h := process_files_complete 2 false
    [⟨"a.mp3", false, none, some "mp3", some "a", .failure .FFprobeNotFound⟩]
    (by norm_num)
  simpa using h.1

/-- A concrete success record for the C8 scenario. -/
def sampleInfo (d : ℚ) (sz : Nat) : AudioInfo :=
  { AudioInfo.new "sample" with duration_seconds := d, file_size := sz }

/-- The C8 scenario: three successes (durations 10, 20, 30; sizes 100, 200,
300) interleaved with two failures. -/
def sampleOutcome : List (Except AudioProbeError AudioInfo) :=
  [.ok (sampleInfo 10 100), .error (.FileNotFound "x"),
   .ok (sampleInfo 20 200), .ok (sampleInfo 30 300),
   .error (.FFprobeError "boom")]

theorem partitionResults_fst (rs : List (Except AudioProbeError AudioInfo)) :
    (partitionResults rs).1 = rs.filterMap Except.toOption := by
  induction rs with
  | nil => rfl
  | cons r rest ih => cases r <;> simp [partitionResults, Except.toOption, ih]

theorem partitionResults_snd (rs : List (Except AudioProbeError AudioInfo)) :
    (partitionResults rs).2 = rs.filterMap
      (fun r => match r with | .ok _ => none | .error e => some e) := by
  induction rs with
  | nil => rfl
  | cons r rest ih => cases r <;> simp [partitionResults, ih]

/-- C8: the aggregation loop (main.rs:525-544) partitions the batch outcome
into successes and failures, each keeping the outcome order (they are the
`filterMap` of the outcome list), and sums duration and size over successes
only; on the 3-success/2-failure scenario it yields counts 3 and 2, total
duration 60 and total size 600. -/
theorem summarize_partition (rs : List (Except AudioProbeError AudioInfo)) :
    (partitionResults rs).1 = rs.filterMap Except.toOption
    ∧ (partitionResults rs).2 = rs.filterMap
        (fun r => match r with | .ok _ => none | .error e => some e)
    ∧ (partitionResults sampleOutcome).1.length = 3
    ∧ (partitionResults sampleOutcome).2.length = 2
    ∧ total_duration (partitionResults sampleOutcome).1 = 60
    ∧ total_size (partitionResults sampleOutcome).1 = 600 := by
  refine ⟨partitionResults_fst rs, partitionResults_snd rs, ?_, ?_, ?_, ?_⟩
  · decide
  · decide
  · show total_duration [sampleInfo 10 100, sampleInfo 20 200,
      sampleInfo 30 300] = 60
    simp [total_duration, sampleInfo]
    norm_num
  · decide

/-- Witness for C8: the concrete scenario, through the theorem. -/
theorem summarize_partition_witness :
    total_duration (partitionResults sampleOutcome).1 = 60
    ∧ total_size (partitionResults sampleOutcome).1 = 600 := by
  have h := summarize_partition []
  exact ⟨h.2.2.2.2.1, h.2.2.2.2.2⟩

/-- C9: `main` exits with code 1 when invoked with zero paths
(main.rs:458-461); with paths supplied but zero audio files discovered it
prints the no-files warning and returns `Ok(())`, exit code 0
(main.rs:513-516). -/
theorem cli_exit_codes (recursive : Bool) (paths : List ArgPath) :
    (paths.isEmpty = true →
      main_exit recursive paths = ⟨1, false⟩)
    ∧ (paths.isEmpty = false →
        (paths.map (discoveredCount recursive)).sum = 0 →
        main_exit recursive paths = ⟨0, true⟩) := by
  constructor
  · intro h
    simp [main_exit, h]
  · intro h hz
    simp [main_exit, h, hz]

/-- Witness for C9: an empty argument list exits 1; a single missing path
discovers nothing, warns, and exits 0. -/
theorem cli_exit_codes_witness :
    main_exit false [] = ⟨1, false⟩
    ∧ main_exit false [ArgPath.missing] = ⟨0, true⟩ :=
  ⟨(cli_exit_codes false []).1 rfl,
   (cli_exit_codes false [ArgPath.missing]).2 rfl rfl⟩

/-- The C5 scenario target: an existing 40000-byte `mp3` file, resolved while
the probe tool is unavailable. -/
def mp3Target : Target :=
  ⟨"song.mp3", true, some 40000, some "mp3", some "song",
    .failure .FFprobeNotFound⟩

theorem extension_table_file_size (info : AudioInfo) (ext_str : String) :
    (extension_table info ext_str).file_size = info.file_size := by
  simp only [extension_table]
  split <;> rfl

theorem extension_table_bit_rate_cases (info : AudioInfo) (ext_str : String) :
    (extension_table info ext_str).bit_rate = info.bit_rate
    ∨ (extension_table info ext_str).bit_rate = 320000
    ∨ (extension_table info ext_str).bit_rate = 1411200 := by
  simp only [extension_table]
  split
  · exact Or.inr (Or.inl rfl)
  · refine Or.inr (Or.inr ?_)
    norm_num
  · exact Or.inl rfl
  · exact Or.inr (Or.inl rfl)

theorem extension_lookup_file_size (info : AudioInfo) (t : Target) :
    (extension_lookup info t).file_size = info.file_size := by
  unfold extension_lookup
  split
  · rfl
  · exact extension_table_file_size info _

theorem extension_lookup_bit_rate_cases (info : AudioInfo) (t : Target) :
    (extension_lookup info t).bit_rate = info.bit_rate
    ∨ (extension_lookup info t).bit_rate = 320000
    ∨ (extension_lookup info t).bit_rate = 1411200 := by
  unfold extension_lookup
  split
  · exact Or.inl rfl
  · exact extension_table_bit_rate_cases info _

theorem fallback_analysis_fields (info : AudioInfo) (t : Target) :
    (fallback_analysis info t).bit_rate = (extension_lookup info t).bit_rate
    ∧ (fallback_analysis info t).file_size
        = (extension_lookup info t).file_size
    ∧ (fallback_analysis info t).duration_seconds =
        (if (extension_lookup info t).bit_rate > 0 then
          (((extension_lookup info t).file_size * 8 : Nat) : ℚ)
            / ((extension_lookup info t).bit_rate : ℚ)
        else 300) := by
  by_cases h : 0 < (extension_lookup info t).bit_rate
  · simp [fallback_analysis, h]
  · simp [fallback_analysis, h]

/-- C5: in the estimation fallback (main.rs:322-329), a record whose
post-lookup bit-rate is nonzero gets duration `file_size * 8 / bit_rate`,
zero bit-rate gets the fixed 300.0; concretely, the 40000-byte `mp3` file with
no probe tool gets assumed bit-rate 320000 and duration exactly 1 second.
The fallback always receives a freshly created record carrying only the
statted size (main.rs:136-141, 152, 157), as modelled here. -/
theorem fallback_duration_formula (p : String) (sz : Nat) (t : Target) :
    ((fallback_analysis { AudioInfo.new p with file_size := sz } t).bit_rate ≠ 0 →
      (fallback_analysis { AudioInfo.new p with file_size := sz } t).duration_seconds
        = ((sz * 8 : Nat) : ℚ)
          / ((fallback_analysis { AudioInfo.new p with file_size := sz } t).bit_rate : ℚ))
    ∧ ((fallback_analysis { AudioInfo.new p with file_size := sz } t).bit_rate = 0 →
        (fallback_analysis { AudioInfo.new p with file_size := sz } t).duration_seconds
          = 300)
    ∧ (∃ info, analyze_file false mp3Target = .ok info
        ∧ info.bit_rate = 320000 ∧ info.duration_seconds = 1) := by
  obtain ⟨hb, hs, hd⟩ := fallback_analysis_fields
    { AudioInfo.new p with file_size := sz } t
  have hcases := extension_lookup_bit_rate_cases
    { AudioInfo.new p with file_size := sz } t
  have hsize :
      (extension_lookup { AudioInfo.new p with file_size := sz } t).file_size
        = sz := by
    rw [extension_lookup_file_size]
  refine ⟨?_, ?_, ?_⟩
  · intro hbr
    rw [hb] at hbr ⊢
    have hpos :
        0 < (extension_lookup { AudioInfo.new p with file_size := sz }
          t).bit_rate := by
      rcases hcases with h | h | h
      · rw [h] at hbr
        simp [AudioInfo.new] at hbr
      · rw [h]; norm_num
      · rw [h]; norm_num
    rw [hd, if_pos hpos, hsize]
  · intro hbr
    rw [hb] at hbr
    rw [hd, if_neg (by rw [hbr]; norm_num)]
  · obtain ⟨hb2, hs2, hd2⟩ := fallback_analysis_fields
      { AudioInfo.new "song.mp3" with file_size := 40000 } mp3Target
    have hL : (extension_lookup
        { AudioInfo.new "song.mp3" with file_size := 40000 }
        mp3Target).bit_rate = 320000 := by decide
    have hLs : (extension_lookup
        { AudioInfo.new "song.mp3" with file_size := 40000 }
        mp3Target).file_size = 40000 := by
      rw [extension_lookup_file_size]
    refine ⟨_, rfl, ?_, ?_⟩
    · show (fallback_analysis
        { AudioInfo.new "song.mp3" with file_size := 40000 }
        mp3Target).bit_rate = 320000
      rw [hb2, hL]
    · show (fallback_analysis
        { AudioInfo.new "song.mp3" with file_size := 40000 }
        mp3Target).duration_seconds = 1
      rw [hd2, if_pos (by rw [hL]; norm_num), hL, hLs]
      norm_num

/-- Witness for C5: the general formula applied at the concrete mp3 record. -/
theorem fallback_duration_formula_witness :
    (fallback_analysis { AudioInfo.new "song.mp3" with file_size := 40000 }
      mp3Target).duration_seconds = 1 := by
  have h := fallback_duration_formula "song.mp3" 40000 mp3Target
  have hb : (fallback_analysis
      { AudioInfo.new "song.mp3" with file_size := 40000 }
      mp3Target).bit_rate = 320000 := by decide
  rw [h.1 (by rw [hb]; norm_num), hb]
  norm_num

theorem extension_lookup_none (info : AudioInfo) (t : Target)
    (h : t.extension = none) : extension_lookup info t = info := by
  unfold extension_lookup
  rw [h]

theorem extension_lookup_wav (info : AudioInfo) (t : Target)
    (h : t.extension = some "wav") :
    extension_lookup info t = { info with
      format_name := "wav", codec_name := "pcm_s16le",
      codec_long_name := "PCM signed 16-bit little-endian",
      format_long_name := "WAV / WAVE (Waveform Audio)",
      sample_rate := 44100, channels := 2, bit_rate := 1411200 } := by
  unfold extension_lookup
  rw [h]
  rfl

theorem extension_lookup_unknown (info : AudioInfo) (t : Target) (e : String)
    (h : t.extension = some e)
    (h1 : strToLower e ≠ "mp3") (h2 : strToLower e ≠ "wav")
    (h3 : strToLower e ≠ "flac") :
    extension_lookup info t = { info with
      format_name := strToLower e, codec_name := strToLower e,
      codec_long_name := strToUpper e ++ " audio",
      format_long_name := strToUpper e ++ " format",
      sample_rate := 44100, channels := 2, bit_rate := 320000 } := by
  unfold extension_lookup
  rw [h]
  show extension_table info e = _
  simp only [extension_table]

theorem fallback_analysis_other_fields (info : AudioInfo) (t : Target) :
    (fallback_analysis info t).sample_rate
      = (extension_lookup info t).sample_rate
    ∧ (fallback_analysis info t).channels = (extension_lookup info t).channels
    ∧ (fallback_analysis info t).codec_name
      = (extension_lookup info t).codec_name
    ∧ (fallback_analysis info t).codec_long_name
      = (extension_lookup info t).codec_long_name
    ∧ (fallback_analysis info t).format_name
      = (extension_lookup info t).format_name
    ∧ (fallback_analysis info t).format_long_name
      = (extension_lookup info t).format_long_name := by
  by_cases h : 0 < (extension_lookup info t).bit_rate
  · simp [fallback_analysis, h]
  · simp [fallback_analysis, h]

/-- C6: an existing zero-byte file with extension `wav`, resolved with the
probe tool unavailable, gets the wav-table estimates (main.rs:297-304):
sample-rate 44100, 2 channels, `pcm_s16le` / "PCM signed 16-bit
little-endian", bit-rate 44100*2*16 = 1411200, and duration 0.0 (zero size
divided by a known bit-rate, main.rs:322-325). -/
theorem wav_empty_fallback (t : Target)
    (h1 : t.pathExists = true) (h2 : t.statSize = some 0)
    (h3 : t.extension = some "wav") :
    ∃ info, analyze_file false t = .ok info
      ∧ info.sample_rate = 44100 ∧ info.channels = 2
      ∧ info.codec_name = "pcm_s16le"
      ∧ info.codec_long_name = "PCM signed 16-bit little-endian"
      ∧ info.bit_rate = 1411200
      ∧ info.duration_seconds = 0 := by
  obtain ⟨hsr, hch, hcn, hcln, hfn, hfln⟩ := fallback_analysis_other_fields
    { AudioInfo.new t.path with file_size := t.statSize.getD 0 } t
  obtain ⟨hb, hs, hd⟩ := fallback_analysis_fields
    { AudioInfo.new t.path with file_size := t.statSize.getD 0 } t
  have hlk := extension_lookup_wav
    { AudioInfo.new t.path with file_size := t.statSize.getD 0 } t h3
  simp only [analyze_file, h1, Bool.not_true, Bool.false_eq_true, if_false]
  refine ⟨_, rfl, ?_, ?_, ?_, ?_, ?_, ?_⟩
  · show (fallback_analysis
      { AudioInfo.new t.path with file_size := t.statSize.getD 0 }
      t).sample_rate = 44100
    rw [hsr, hlk]
  · show (fallback_analysis
      { AudioInfo.new t.path with file_size := t.statSize.getD 0 }
      t).channels = 2
    rw [hch, hlk]
  · show (fallback_analysis
      { AudioInfo.new t.path with file_size := t.statSize.getD 0 }
      t).codec_name = "pcm_s16le"
    rw [hcn, hlk]
  · show (fallback_analysis
      { AudioInfo.new t.path with file_size := t.statSize.getD 0 }
      t).codec_long_name = "PCM signed 16-bit little-endian"
    rw [hcln, hlk]
  · show (fallback_analysis
      { AudioInfo.new t.path with file_size := t.statSize.getD 0 }
      t).bit_rate = 1411200
    rw [hb, hlk]
  · show (fallback_analysis
      { AudioInfo.new t.path with file_size := t.statSize.getD 0 }
      t).duration_seconds = 0
    rw [hd, hlk]
    simp [h2]

/-- Witness for C6: a concrete empty `wav` target. -/
theorem wav_empty_fallback_witness :
    ∃ info, analyze_file false
      ⟨"empty.wav", true, some 0, some "wav", some "empty",
        .failure .FFprobeNotFound⟩ = .ok info
      ∧ info.sample_rate = 44100 ∧ info.channels = 2
      ∧ info.codec_name = "pcm_s16le"
      ∧ info.codec_long_name = "PCM signed 16-bit little-endian"
      ∧ info.bit_rate = 1411200
      ∧ info.duration_seconds = 0 :=
  wav_empty_fallback _ rfl rfl rfl

/-- C10: with the probe tool unavailable, a path with no extension at all
skips the whole extension table (main.rs:283 guards it) - the record keeps
the zero/empty defaults of `AudioInfo::new` and its duration becomes the
fixed 300.0 whatever the file size - while an unrecognized extension takes
the `_` table row (main.rs:311-317): generic "EXT audio"/"EXT format"
labels and the 44100 / 2 / 320000 assumptions. -/
theorem fallback_no_extension_vs_unknown (t t2 : Target) (e : String)
    (h1 : t.pathExists = true) (h2 : t.extension = none)
    (h3 : t2.pathExists = true) (h4 : t2.extension = some e)
    (h5 : strToLower e ≠ "mp3") (h6 : strToLower e ≠ "wav")
    (h7 : strToLower e ≠ "flac") :
    (∃ info, analyze_file false t = .ok info
      ∧ info.sample_rate = 0 ∧ info.channels = 0 ∧ info.bit_rate = 0
      ∧ info.codec_name = "" ∧ info.codec_long_name = ""
      ∧ info.format_name = "" ∧ info.format_long_name = ""
      ∧ info.duration_seconds = 300)
    ∧ (∃ info, analyze_file false t2 = .ok info
      ∧ info.sample_rate = 44100 ∧ info.channels = 2 ∧ info.bit_rate = 320000
      ∧ info.codec_long_name = strToUpper e ++ " audio"
      ∧ info.format_long_name = strToUpper e ++ " format") := by
  constructor
  · obtain ⟨hsr, hch, hcn, hcln, hfn, hfln⟩ := fallback_analysis_other_fields
      { AudioInfo.new t.path with file_size := t.statSize.getD 0 } t
    obtain ⟨hb, hs, hd⟩ := fallback_analysis_fields
      { AudioInfo.new t.path with file_size := t.statSize.getD 0 } t
    have hlk := extension_lookup_none
      { AudioInfo.new t.path with file_size := t.statSize.getD 0 } t h2
    simp only [analyze_file, h1, Bool.not_true, Bool.false_eq_true, if_false]
    refine ⟨_, rfl, ?_, ?_, ?_, ?_, ?_, ?_, ?_, ?_⟩
    · show (fallback_analysis
        { AudioInfo.new t.path with file_size := t.statSize.getD 0 }
        t).sample_rate = 0
      rw [hsr, hlk]
      rfl
    · show (fallback_analysis
        { AudioInfo.new t.path with file_size := t.statSize.getD 0 }
        t).channels = 0
      rw [hch, hlk]
      rfl
    · show (fallback_analysis
        { AudioInfo.new t.path with file_size := t.statSize.getD 0 }
        t).bit_rate = 0
      rw [hb, hlk]
      rfl
    · show (fallback_analysis
        { AudioInfo.new t.path with file_size := t.statSize.getD 0 }
        t).codec_name = ""
      rw [hcn, hlk]
      rfl
    · show (fallback_analysis
        { AudioInfo.new t.path with file_size := t.statSize.getD 0 }
        t).codec_long_name = ""
      rw [hcln, hlk]
      rfl
    · show (fallback_analysis
        { AudioInfo.new t.path with file_size := t.statSize.getD 0 }
        t).format_name = ""
      rw [hfn, hlk]
      rfl
    · show (fallback_analysis
        { AudioInfo.new t.path with file_size := t.statSize.getD 0 }
        t).format_long_name = ""
      rw [hfln, hlk]
      rfl
    · show (fallback_analysis
        { AudioInfo.new t.path with file_size := t.statSize.getD 0 }
        t).duration_seconds = 300
      rw [hd, hlk]
      simp [AudioInfo.new]
  · obtain ⟨hsr, hch, hcn, hcln, hfn, hfln⟩ := fallback_analysis_other_fields
      { AudioInfo.new t2.path with file_size := t2.statSize.getD 0 } t2
    obtain ⟨hb, hs, hd⟩ := fallback_analysis_fields
      { AudioInfo.new t2.path with file_size := t2.statSize.getD 0 } t2
    have hlk := extension_lookup_unknown
      { AudioInfo.new t2.path with file_size := t2.statSize.getD 0 } t2 e
      h4 h5 h6 h7
    simp only [analyze_file, h3, Bool.not_true, Bool.false_eq_true, if_false]
    refine ⟨_, rfl, ?_, ?_, ?_, ?_, ?_⟩
    · show (fallback_analysis
        { AudioInfo.new t2.path with file_size := t2.statSize.getD 0 }
        t2).sample_rate = 44100
      rw [hsr, hlk]
    · show (fallback_analysis
        { AudioInfo.new t2.path with file_size := t2.statSize.getD 0 }
        t2).channels = 2
      rw [hch, hlk]
    · show (fallback_analysis
        { AudioInfo.new t2.path with file_size := t2.statSize.getD 0 }
        t2).bit_rate = 320000
      rw [hb, hlk]
    · show (fallback_analysis
        { AudioInfo.new t2.path with file_size := t2.statSize.getD 0 }
        t2).codec_long_name = strToUpper e ++ " audio"
      rw [hcln, hlk]
    · show (fallback_analysis
        { AudioInfo.new t2.path with file_size := t2.statSize.getD 0 }
        t2).format_long_name = strToUpper e ++ " format"
      rw [hfln, hlk]

/-- Witness for C10: a concrete extensionless target against a concrete
`xyz` target. -/
theorem fallback_no_extension_vs_unknown_witness :
    (∃ info, analyze_file false
      ⟨"noext", true, some 5, none, some "noext",
        .failure .FFprobeNotFound⟩ = .ok info
      ∧ info.sample_rate = 0 ∧ info.channels = 0 ∧ info.bit_rate = 0
      ∧ info.codec_name = "" ∧ info.codec_long_name = ""
      ∧ info.format_name = "" ∧ info.format_long_name = ""
      ∧ info.duration_seconds = 300)
    ∧ (∃ info, analyze_file false
      ⟨"f.xyz", true, some 5, some "xyz", some "f",
        .failure .FFprobeNotFound⟩ = .ok info
      ∧ info.sample_rate = 44100 ∧ info.channels = 2 ∧ info.bit_rate = 320000
      ∧ info.codec_long_name = strToUpper "xyz" ++ " audio"
      ∧ info.format_long_name = strToUpper "xyz" ++ " format") :=
  fallback_no_extension_vs_unknown _ _ "xyz" rfl rfl rfl rfl
    (by decide) (by decide) (by decide)

/-- C4: when the probe succeeds and both a container-level and a stream-level
bit-rate string are present, the record's bit-rate is the container-level
value whenever that parses nonzero; the final bit-rate can differ from the
container-level value only when the container-level value was zero/unknown
(main.rs:232-234 and 268-275). -/
theorem ffprobe_bitrate_priority (t : Target) (out : FFProbeOutput)
    (f : FFProbeFormat) (st : FFProbeStream) (cs ss : String)
    (info : AudioInfo)
    (hprobe : t.probe = .success out)
    (hfmt : out.format = some f)
    (hcbr : f.bit_rate = some cs)
    (hstream : (scanStreams out.streams).1 = some st)
    (hsbr : st.bit_rate = some ss)
    (hres : analyze_with_ffprobe t = .ok info) :
    ((parseI64 cs).getD 0 ≠ 0 → info.bit_rate = (parseI64 cs).getD 0)
    ∧ (info.bit_rate ≠ (parseI64 cs).getD 0 → (parseI64 cs).getD 0 = 0) := by
  obtain ⟨fn, fln, fdur, fbr, ftags⟩ := f
  obtain ⟨scn, scln, sct, ssr, sch, sbr⟩ := st
  simp only [FFProbeFormat.bit_rate] at hcbr
  simp only [FFProbeStream.bit_rate] at hsbr
  subst hcbr hsbr
  simp only [analyze_with_ffprobe, hprobe, hfmt, hstream] at hres
  rcases fdur with _ | fdur <;> rcases ftags with _ | ftags <;>
    rcases scn with _ | scn <;> rcases scln with _ | scln <;>
    rcases ssr with _ | ssr <;> rcases sch with _ | sch <;>
    rcases hp : parseI64 ss with _ | sv <;>
    simp only [hp, Except.ok.injEq] at hres <;> subst hres
  all_goals refine ⟨fun hbr => ?_, fun hbr => ?_⟩
  all_goals first
  | rfl
  | exact absurd rfl hbr
  | (rw [apply_ite AudioInfo.bit_rate]
     split
     next h => exact absurd h.2 hbr
     next h => rfl)
  | (rw [apply_ite AudioInfo.bit_rate] at hbr
     split at hbr
     next h => exact h.2
     next h => exact absurd rfl hbr)

/-- C4 witness fixture: the sole audio stream reports bit-rate "256000". -/
def probeWitStream : FFProbeStream :=
  ⟨some "mp3", some "MP3 (MPEG audio layer 3)", "audio", some "44100",
    some 2, some "256000"⟩

/-- C4 witness fixture: the container reports bit-rate "128000". -/
def probeWitFormat : FFProbeFormat :=
  ⟨"mp3", "MP2/3 (MPEG audio layer 2/3)", none, some "128000", none⟩

/-- C4 witness fixture: one container, one audio stream. -/
def probeWitOutput : FFProbeOutput := ⟨some probeWitFormat, [probeWitStream]⟩

/-- C4 witness fixture: an existing path whose probe run succeeds with
`probeWitOutput`. -/
def probeWitTarget : Target :=
  ⟨"a.mp3", true, some 9, some "mp3", some "a", .success probeWitOutput⟩

/-- The record `analyze_with_ffprobe` produces for `probeWitTarget`. -/
def probeWitInfo : AudioInfo :=
  { file_path := "a.mp3", file_size := 9, duration_seconds := 0,
    bit_rate := 128000, sample_rate := 44100, channels := 2,
    codec_name := "mp3", codec_long_name := "MP3 (MPEG audio layer 3)",
    format_name := "mp3",
    format_long_name := "MP2/3 (MPEG audio layer 2/3)",
    has_video := false, metadata := [], processing_time_ms := 0 }

/-- Witness for C4: with container bit-rate 128000 (nonzero) and stream
bit-rate 256000 both present, the record keeps the container value. -/
theorem ffprobe_bitrate_priority_witness :
    probeWitInfo.bit_rate = (parseI64 "128000").getD 0 := by
  have h := ffprobe_bitrate_priority probeWitTarget probeWitOutput
    probeWitFormat probeWitStream "128000" "256000" probeWitInfo
    rfl rfl rfl rfl rfl rfl
  exact h.1 (by decide)
